import Mathlib

/-!
Shallow embedding of the settrade-feed-adapter core:
the bounded SPSC dispatcher (src/core/dispatcher.py), the normalized
event model (src/core/events.py), the adapter hot path
(src/infra/settrade_adapter.py) and the feed health monitor
(src/core/feed_health.py), together with theorems settling the
spec claims about them.
-/

namespace SettradeFeed

/-! ## Dispatcher (src/core/dispatcher.py)

State of a `Dispatcher` instance.  The Python queue is a
`collections.deque(maxlen)`; we model it as a list whose head is the
oldest element.  The EMA fields are Python floats; they are modelled
as rationals (no claim in scope depends on IEEE-754 rounding of the
EMA, only on it being reset / left unchanged).  `DispatcherConfig`
validates `maxlen > 0`, `ema_alpha ∈ (0,1]`, `drop_warning_threshold
∈ (0,1]`; theorems about constructed dispatchers carry `0 < maxlen`
as a hypothesis where it matters. -/

structure Dispatcher (T : Type) where
  maxlen : Nat
  queue : List T
  total_pushed : Nat
  total_polled : Nat
  total_dropped : Nat
  ema_alpha : ℚ
  drop_warning_threshold : ℚ
  drop_rate_ema : ℚ
  warned_drop_rate : Bool

/-- Freshly constructed dispatcher (`Dispatcher.__init__`): empty
queue, all counters zero, EMA zero, warning latch unset. -/
def Dispatcher.init (T : Type) (maxlen : Nat) (alpha threshold : ℚ) :
    Dispatcher T :=
  { maxlen := maxlen
    queue := []
    total_pushed := 0
    total_polled := 0
    total_dropped := 0
    ema_alpha := alpha
    drop_warning_threshold := threshold
    drop_rate_ema := 0
    warned_drop_rate := false }

/-- `Dispatcher.push`: pre-append fullness check counts a drop, the
`deque(maxlen)` append evicts the oldest element when full, the push
counter increments, the drop-rate EMA is updated by
`alpha * sample + (1 - alpha) * ema`, and the one-shot warning latch
ends up set exactly when the new EMA exceeds the threshold (the
if/elif in the source sets it on crossing and clears it on
recovery). -/
def Dispatcher.push {T : Type} (s : Dispatcher T) (event : T) :
    Dispatcher T :=
  let isFull := s.queue.length = s.maxlen
  let total_dropped' := if isFull then s.total_dropped + 1 else s.total_dropped
  let sample : ℚ := if isFull then 1 else 0
  let queue' := if isFull then s.queue.tail ++ [event] else s.queue ++ [event]
  let ema' := s.ema_alpha * sample + (1 - s.ema_alpha) * s.drop_rate_ema
  { s with
    queue := queue'
    total_pushed := s.total_pushed + 1
    total_dropped := total_dropped'
    drop_rate_ema := ema'
    warned_drop_rate := decide (s.drop_warning_threshold < ema') }

/-- The consumer loop inside `Dispatcher.poll`: `for _ in
range(max_events): if not queue: break; events.append(popleft())`.
Returns the events taken (FIFO) and the remaining queue. -/
def pollLoop {T : Type} : Nat → List T → List T × List T
  | 0, q => ([], q)
  | _ + 1, [] => ([], [])
  | n + 1, e :: q =>
    let r := pollLoop n q
    (e :: r.1, r.2)

/-- `Dispatcher.poll`: raises `ValueError` when `max_events <= 0`
(before touching any state — the returned state is the input state),
otherwise drains up to `max_events` events in FIFO order and adds the
number returned to the poll counter. -/
def Dispatcher.poll {T : Type} (s : Dispatcher T) (maxEvents : Int) :
    Except String (List T) × Dispatcher T :=
  if maxEvents ≤ 0 then
    (Except.error "max_events must be > 0", s)
  else
    let r := pollLoop maxEvents.toNat s.queue
    (Except.ok r.1,
      { s with queue := r.2, total_polled := s.total_polled + r.1.length })

/-- `Dispatcher.clear`: empties the queue and resets every counter,
the EMA and the warning latch. -/
def Dispatcher.clear {T : Type} (s : Dispatcher T) : Dispatcher T :=
  { s with
    queue := []
    total_pushed := 0
    total_polled := 0
    total_dropped := 0
    drop_rate_ema := 0
    warned_drop_rate := false }

/-- `Dispatcher._invariant_ok`: `total_pushed - total_dropped -
total_polled == len(queue)` (Python ints, so computed in ℤ). -/
def Dispatcher.invariant_ok {T : Type} (s : Dispatcher T) : Bool :=
  ((s.total_pushed : Int) - s.total_dropped - s.total_polled) ==
    (s.queue.length : Int)

/-- A sequential (quiescent) operation on the dispatcher. -/
inductive DispatcherOp (T : Type) where
  | push (event : T)
  | poll (maxEvents : Int)
  | clear
deriving DecidableEq

/-- Run one operation; a `poll` whose argument fails validation
raises and therefore leaves the state unchanged (which is what
`Dispatcher.poll` returns for it). -/
def runOp {T : Type} (s : Dispatcher T) : DispatcherOp T → Dispatcher T
  | .push e => s.push e
  | .poll m => (s.poll m).2
  | .clear => s.clear

/-- Run a sequence of operations left to right. -/
def runOps {T : Type} (s : Dispatcher T) (ops : List (DispatcherOp T)) :
    Dispatcher T :=
  ops.foldl runOp s

/-- A concrete mid-life dispatcher state used to instantiate the
poll theorem: capacity 5, three queued events, counters consistent
with two earlier drops and two earlier polls. -/
def sampleDispatcher : Dispatcher Nat :=
  { maxlen := 5
    queue := [10, 20, 30]
    total_pushed := 7
    total_polled := 2
    total_dropped := 2
    ema_alpha := 1/2
    drop_warning_threshold := 1/2
    drop_rate_ema := 0
    warned_drop_rate := false }

/-! ## Event model (src/core/events.py)

`BidAskFlag` is an `IntEnum`; `BestBidAsk` and `FullBidOffer` are
frozen pydantic models.  Because the hot path builds events with
`model_construct` (no validation), the flag fields may hold raw ints;
we therefore store the flags as `Int` on the records (enum members
compare equal to their ints).  Prices are Python floats; they are
modelled as rationals — no claim in scope depends on IEEE-754
rounding of a price, only on which fields are constrained.  The
validating (strict) constructors' field checks are embedded as
boolean `validate` functions. -/

inductive BidAskFlag where
  | UNDEFINED
  | NORMAL
  | ATO
  | ATC
deriving DecidableEq

/-- Integer value of each `BidAskFlag` member (`UNDEFINED = 0`,
`NORMAL = 1`, `ATO = 2`, `ATC = 3`). -/
def BidAskFlag.toInt : BidAskFlag → Int
  | .UNDEFINED => 0
  | .NORMAL => 1
  | .ATO => 2
  | .ATC => 3

/-- The `_AUCTION_FLAGS` tuple `(BidAskFlag.ATO, BidAskFlag.ATC)`,
as the integer values the membership test compares against. -/
def AUCTION_FLAGS : List Int := [BidAskFlag.ATO.toInt, BidAskFlag.ATC.toInt]

/-- The module-level helper `_is_auction(bid_flag, ask_flag)`:
`bid_flag in _AUCTION_FLAGS or ask_flag in _AUCTION_FLAGS`
(membership by equality, which also works for raw ints). -/
def is_auction_flags (bid_flag ask_flag : Int) : Bool :=
  AUCTION_FLAGS.contains bid_flag || AUCTION_FLAGS.contains ask_flag

/-- Top-of-book event record `BestBidAsk`. -/
structure BestBidAsk where
  symbol : String
  bid : ℚ
  ask : ℚ
  bid_vol : Int
  ask_vol : Int
  bid_flag : Int
  ask_flag : Int
  recv_ts : Int
  recv_mono_ns : Int
  connection_epoch : Int

/-- `BestBidAsk.is_auction`, delegating to `_is_auction`. -/
def BestBidAsk.is_auction (e : BestBidAsk) : Bool :=
  is_auction_flags e.bid_flag e.ask_flag

/-- Whether an int is coercible to a `BidAskFlag` member by pydantic
validation (the enum has members for 0, 1, 2, 3 only). -/
def flagValid (f : Int) : Bool :=
  f == 0 || f == 1 || f == 2 || f == 3

/-- Field validators run by the strict `BestBidAsk(...)` constructor:
`symbol` has `min_length=1`; `bid_vol`, `ask_vol`, `recv_ts`,
`recv_mono_ns`, `connection_epoch` have `ge=0`; the flags must
coerce to `BidAskFlag`.  The price fields `bid`/`ask` carry no
constraint. -/
def BestBidAsk.validate (e : BestBidAsk) : Bool :=
  decide (1 ≤ e.symbol.length) &&
  decide (0 ≤ e.bid_vol) &&
  decide (0 ≤ e.ask_vol) &&
  flagValid e.bid_flag &&
  flagValid e.ask_flag &&
  decide (0 ≤ e.recv_ts) &&
  decide (0 ≤ e.recv_mono_ns) &&
  decide (0 ≤ e.connection_epoch)

/-- Full-depth event record `FullBidOffer`.  The four level
sequences are tuples in the source; lists here. -/
structure FullBidOffer where
  symbol : String
  bid_prices : List ℚ
  ask_prices : List ℚ
  bid_volumes : List Int
  ask_volumes : List Int
  bid_flag : Int
  ask_flag : Int
  recv_ts : Int
  recv_mono_ns : Int
  connection_epoch : Int

/-- `FullBidOffer.is_auction`, delegating to `_is_auction`. -/
def FullBidOffer.is_auction (e : FullBidOffer) : Bool :=
  is_auction_flags e.bid_flag e.ask_flag

/-- Field validators run by the strict `FullBidOffer(...)`
constructor: `symbol` has `min_length=1`; each level sequence has
`min_length=10, max_length=10` (length only — the element type is
plain `int`/`float` with no `ge` bound); `recv_ts`, `recv_mono_ns`,
`connection_epoch` have `ge=0`; the flags must coerce to
`BidAskFlag`. -/
def FullBidOffer.validate (e : FullBidOffer) : Bool :=
  decide (1 ≤ e.symbol.length) &&
  (e.bid_prices.length == 10) &&
  (e.ask_prices.length == 10) &&
  (e.bid_volumes.length == 10) &&
  (e.ask_volumes.length == 10) &&
  flagValid e.bid_flag &&
  flagValid e.ask_flag &&
  decide (0 ≤ e.recv_ts) &&
  decide (0 ≤ e.recv_mono_ns) &&
  decide (0 ≤ e.connection_epoch)

/-! ## Adapter hot path (src/infra/settrade_adapter.py) -/

/-- A protobuf `Money` value: `(units, nanos)`. -/
structure Money where
  units : Int
  nanos : Int

/-- The fields of a parsed `BidOfferV3` frame read by
`_parse_best_bid_ask`. -/
structure BidOfferV3Best where
  symbol : String
  bid_price1 : Money
  ask_price1 : Money
  bid_volume1 : Int
  ask_volume1 : Int
  bid_flag : Int
  ask_flag : Int

/-- Money conversion `units + nanos * 1e-9`, inlined on the hot
path (exact here in ℚ). -/
def moneyToRat (m : Money) : ℚ :=
  (m.units : ℚ) + (m.nanos : ℚ) / 1000000000

/-- `BidOfferAdapter._parse_best_bid_ask`: builds the event with
`model_construct`, passing every field except `connection_epoch`,
which therefore keeps its declared default of 0. -/
def parse_best_bid_ask (msg : BidOfferV3Best) (recv_ts recv_mono_ns : Int) :
    BestBidAsk :=
  { symbol := msg.symbol
    bid := moneyToRat msg.bid_price1
    ask := moneyToRat msg.ask_price1
    bid_vol := msg.bid_volume1
    ask_vol := msg.ask_volume1
    bid_flag := msg.bid_flag
    ask_flag := msg.ask_flag
    recv_ts := recv_ts
    recv_mono_ns := recv_mono_ns
    connection_epoch := 0 }

/-- The three adapter counters touched by
`BidOfferAdapter._on_message`. -/
structure AdapterCounters where
  messages_parsed : Nat
  parse_errors : Nat
  callback_errors : Nat
deriving DecidableEq

/-- `BidOfferAdapter._on_message` counter effect for one inbound
frame.  Phase 1 (protobuf parse + event construction) is the first
`try`: on exception `parse_errors += 1` and return.  Phase 2 (the
`on_event` callback) is the second `try`: on exception
`callback_errors += 1` and return.  Only on full success
`messages_parsed += 1`.  The parse outcome and the callback are
passed as `Except` values, the shallow embedding of the two
exception scopes. -/
def on_message_counters {E : Type} (c : AdapterCounters)
    (parseResult : Except String E) (callback : E → Except String Unit) :
    AdapterCounters :=
  match parseResult with
  | .error _ => { c with parse_errors := c.parse_errors + 1 }
  | .ok event =>
    match callback event with
    | .error _ => { c with callback_errors := c.callback_errors + 1 }
    | .ok _ => { c with messages_parsed := c.messages_parsed + 1 }

/-! ## Feed health monitor (src/core/feed_health.py)

State of a `FeedHealthMonitor`.  The two Python dicts are modelled
extensionally as `String → Option Int`; the thresholds are the
nanosecond integers `__init__` caches (`int(seconds * 1e9)` of the
validated config values). -/

structure FeedHealthMonitor where
  max_gap_ns : Int
  per_symbol_max_gap_ns : String → Option Int
  global_last_event_mono_ns : Option Int
  last_event_mono_ns : String → Option Int

/-- A freshly constructed monitor: no global timestamp, no
per-symbol entries, thresholds precomputed. -/
def FeedHealthMonitor.init (max_gap_ns : Int)
    (per_symbol_max_gap_ns : String → Option Int) : FeedHealthMonitor :=
  { max_gap_ns := max_gap_ns
    per_symbol_max_gap_ns := per_symbol_max_gap_ns
    global_last_event_mono_ns := none
    last_event_mono_ns := fun _ => none }

/-- `FeedHealthMonitor.on_event`: records `now` into the global slot
and the symbol's slot. -/
def FeedHealthMonitor.on_event (st : FeedHealthMonitor) (symbol : String)
    (now : Int) : FeedHealthMonitor :=
  { st with
    global_last_event_mono_ns := some now
    last_event_mono_ns := fun s =>
      if s = symbol then some now else st.last_event_mono_ns s }

/-- `FeedHealthMonitor.is_feed_dead`: `False` before any event;
afterwards `max(0, now - global_last) > max_gap_ns`. -/
def FeedHealthMonitor.is_feed_dead (st : FeedHealthMonitor) (now : Int) :
    Bool :=
  match st.global_last_event_mono_ns with
  | none => false
  | some g => decide (st.max_gap_ns < max 0 (now - g))

/-- `FeedHealthMonitor.has_ever_received`. -/
def FeedHealthMonitor.has_ever_received (st : FeedHealthMonitor) : Bool :=
  st.global_last_event_mono_ns.isSome

/-- `FeedHealthMonitor.is_stale`: `False` for a never-seen symbol;
otherwise `max(0, now - last) > per-symbol threshold` where the
threshold is the `dict.get(symbol, global)` lookup of the cached
nanosecond overrides. -/
def FeedHealthMonitor.is_stale (st : FeedHealthMonitor) (symbol : String)
    (now : Int) : Bool :=
  match st.last_event_mono_ns symbol with
  | none => false
  | some last =>
    decide ((st.per_symbol_max_gap_ns symbol).getD st.max_gap_ns <
      max 0 (now - last))

/-- `FeedHealthMonitor.has_seen`. -/
def FeedHealthMonitor.has_seen (st : FeedHealthMonitor) (symbol : String) :
    Bool :=
  (st.last_event_mono_ns symbol).isSome

/-- `FeedHealthMonitor.purge`: `dict.pop(symbol, None)` on the
per-symbol map; returns whether an entry was removed, together with
the new state.  The global slot and the thresholds are untouched. -/
def FeedHealthMonitor.purge (st : FeedHealthMonitor) (symbol : String) :
    Bool × FeedHealthMonitor :=
  ((st.last_event_mono_ns symbol).isSome,
    { st with
      last_event_mono_ns := fun s =>
        if s = symbol then none else st.last_event_mono_ns s })

/-- Concrete monitor for the stale-detection scenario: global
threshold 5s (5 000 000 000 ns), per-symbol override RARE → 60s,
with PTT and RARE both recorded at t = 0. -/
def sampleMonitor : FeedHealthMonitor :=
  ((FeedHealthMonitor.init 5000000000
      (fun s => if s = "RARE" then some 60000000000 else none)).on_event
    "PTT" 0).on_event "RARE" 0

/-- A full-depth event whose first bid volume is negative but whose
symbol, sequence lengths, flags and timestamps all satisfy their
declared constraints. -/
def negativeVolumeFullBidOffer : FullBidOffer :=
  { symbol := "AOT"
    bid_prices := [25, 25, 25, 25, 25, 25, 25, 25, 25, 25]
    ask_prices := [26, 26, 26, 26, 26, 26, 26, 26, 26, 26]
    bid_volumes := [-100, 0, 0, 0, 0, 0, 0, 0, 0, 0]
    ask_volumes := [0, 0, 0, 0, 0, 0, 0, 0, 0, 0]
    bid_flag := 1
    ask_flag := 1
    recv_ts := 0
    recv_mono_ns := 0
    connection_epoch := 0 }

/-! ## Helper lemmas -/

theorem pollLoop_eq {T : Type} (n : Nat) (q : List T) :
    pollLoop n q = (q.take n, q.drop n) := by
  induction n generalizing q with
  | zero => simp [pollLoop]
  | succ n ih =>
    cases q with
    | nil => simp [pollLoop]
    | cons e q => simp [pollLoop, ih]

theorem push_step {T : Type} (s : Dispatcher T) (e : T) (hm : 0 < s.maxlen)
    (hlen : s.queue.length ≤ s.maxlen) :
    (s.push e).maxlen = s.maxlen ∧
    (s.push e).total_polled = s.total_polled ∧
    (s.push e).queue.length ≤ s.maxlen ∧
    ((s.push e).total_pushed : Int) - (s.push e).total_dropped -
        ((s.push e).queue.length : Int) =
      (s.total_pushed : Int) - s.total_dropped - (s.queue.length : Int) := by
  obtain ⟨maxlen, queue, tp, tpo, td, al, th, ema, w⟩ := s
  simp only [Dispatcher.push] at *
  by_cases h : queue.length = maxlen
  · cases queue with
    | nil =>
      simp at h
      exact absurd hm (by omega)
    | cons x q0 =>
      have hlen2 : q0.length + 1 = maxlen := by simpa using h
      simp [h]
      omega
  · simp [h]
    omega

theorem poll_step {T : Type} (s : Dispatcher T) (m : Int)
    (hlen : s.queue.length ≤ s.maxlen) :
    (s.poll m).2.maxlen = s.maxlen ∧
    (s.poll m).2.total_pushed = s.total_pushed ∧
    (s.poll m).2.total_dropped = s.total_dropped ∧
    (s.poll m).2.queue.length ≤ s.maxlen ∧
    ((s.poll m).2.total_pushed : Int) - (s.poll m).2.total_dropped -
        (s.poll m).2.total_polled - ((s.poll m).2.queue.length : Int) =
      (s.total_pushed : Int) - s.total_dropped - s.total_polled -
        (s.queue.length : Int) := by
  unfold Dispatcher.poll
  by_cases h : m ≤ 0
  · simp [h]
    exact hlen
  · simp [h, pollLoop_eq]
    omega

theorem runOp_step {T : Type} (s : Dispatcher T) (op : DispatcherOp T)
    (hm : 0 < s.maxlen) (hlen : s.queue.length ≤ s.maxlen)
    (hinv : (s.total_pushed : Int) - s.total_dropped - s.total_polled =
      (s.queue.length : Int)) :
    (runOp s op).maxlen = s.maxlen ∧
    (runOp s op).queue.length ≤ s.maxlen ∧
    ((runOp s op).total_pushed : Int) - (runOp s op).total_dropped -
        (runOp s op).total_polled = ((runOp s op).queue.length : Int) := by
  cases op with
  | push e =>
    have h := push_step s e hm hlen
    simp only [runOp]
    refine ⟨h.1, h.2.2.1, ?_⟩
    have h2 := h.2.1
    have h4 := h.2.2.2
    omega
  | poll m =>
    have h := poll_step s m hlen
    simp only [runOp]
    exact ⟨h.1, h.2.2.2.1, by omega⟩
  | clear =>
    simp only [runOp, Dispatcher.clear]
    simp

theorem runOps_inv {T : Type} (ops : List (DispatcherOp T))
    (s : Dispatcher T) (hm : 0 < s.maxlen)
    (hlen : s.queue.length ≤ s.maxlen)
    (hinv : (s.total_pushed : Int) - s.total_dropped - s.total_polled =
      (s.queue.length : Int)) :
    (runOps s ops).maxlen = s.maxlen ∧
    (runOps s ops).queue.length ≤ s.maxlen ∧
    ((runOps s ops).total_pushed : Int) - (runOps s ops).total_dropped -
        (runOps s ops).total_polled = ((runOps s ops).queue.length : Int) := by
  induction ops generalizing s with
  | nil => exact ⟨rfl, hlen, hinv⟩
  | cons op ops ih =>
    have h := runOp_step s op hm hlen hinv
    have := ih (runOp s op) (h.1 ▸ hm) (h.1 ▸ h.2.1) h.2.2
    simpa [runOps, List.foldl_cons] using
      ⟨this.1.trans h.1, h.1 ▸ this.2.1, this.2.2⟩

theorem push_detail {T : Type} (s : Dispatcher T) (e : T)
    (hm : 0 < s.maxlen) (hq : s.queue.length ≤ s.maxlen) :
    (s.push e).maxlen = s.maxlen ∧
    (s.push e).queue =
      (s.queue ++ [e]).drop (s.queue.length + 1 - s.maxlen) ∧
    (s.push e).total_pushed = s.total_pushed + 1 ∧
    (s.push e).total_dropped =
      s.total_dropped + (s.queue.length + 1 - s.maxlen) := by
  obtain ⟨maxlen, queue, tp, tpo, td, al, th, ema, w⟩ := s
  simp only [Dispatcher.push] at *
  by_cases h : queue.length = maxlen
  · cases queue with
    | nil =>
      simp at h
      exact absurd hm (by omega)
    | cons x q0 =>
      have hlen2 : q0.length + 1 = maxlen := by simpa using h
      have hidx : (x :: q0).length + 1 - maxlen = 1 := by
        simp
        omega
      simp [h, hidx]
  · have hidx : queue.length + 1 - maxlen = 0 := by omega
    simp [h, hidx]

theorem foldl_push_spec {T : Type} (es : List T) (s : Dispatcher T)
    (hm : 0 < s.maxlen) (hq : s.queue.length ≤ s.maxlen) :
    (es.foldl Dispatcher.push s).maxlen = s.maxlen ∧
    (es.foldl Dispatcher.push s).queue =
      (s.queue ++ es).drop (s.queue.length + es.length - s.maxlen) ∧
    (es.foldl Dispatcher.push s).total_pushed =
      s.total_pushed + es.length ∧
    (es.foldl Dispatcher.push s).total_dropped =
      s.total_dropped + (s.queue.length + es.length - s.maxlen) := by
  induction es generalizing s with
  | nil =>
    have h0 : s.queue.length - s.maxlen = 0 := by omega
    simp [h0]
  | cons e es ih =>
    have hd := push_detail s e hm hq
    have hm' : 0 < (s.push e).maxlen := hd.1 ▸ hm
    have hql : (s.push e).queue.length =
        s.queue.length + 1 - (s.queue.length + 1 - s.maxlen) := by
      rw [hd.2.1]
      simp
    have hlen' : (s.push e).queue.length ≤ (s.push e).maxlen := by
      rw [hd.1, hql]
      omega
    have ihh := ih (s.push e) hm' hlen'
    rw [List.foldl_cons]
    refine ⟨ihh.1.trans hd.1, ?_, ?_, ?_⟩
    · rw [ihh.2.1, hd.1, hql, hd.2.1,
        ← List.drop_append_of_le_length (by simp),
        List.drop_drop]
      have hidx : s.queue.length + 1 - s.maxlen +
          (s.queue.length + 1 - (s.queue.length + 1 - s.maxlen) +
            es.length - s.maxlen) =
          s.queue.length + (e :: es).length - s.maxlen := by
        simp
        omega
      rw [hidx, List.append_assoc, List.singleton_append]
    · rw [ihh.2.2.1, hd.2.2.1]
      simp
      omega
    · rw [ihh.2.2.2, hd.2.2.2, hql]
      simp
      omega

theorem take_min_length {T : Type} (q : List T) (n : Nat) :
    q.take (min n q.length) = q.take n := by
  rcases Nat.le_total n q.length with h | h
  · rw [Nat.min_eq_left h]
  · rw [Nat.min_eq_right h, List.take_length, List.take_of_length_le h]

theorem drop_min_length {T : Type} (q : List T) (n : Nat) :
    q.drop (min n q.length) = q.drop n := by
  rcases Nat.le_total n q.length with h | h
  · rw [Nat.min_eq_left h]
  · rw [Nat.min_eq_right h, List.drop_length,
      List.drop_eq_nil_of_le h]

/-! ## Claim theorems -/

/-- C1: drop-oldest — for every capacity `N > 0` and every sequence
of `M > N` events pushed into a freshly constructed dispatcher with
no intervening poll or clear, the retained queue is exactly the last
`N` of the push sequence in push order, `total_dropped = M - N`,
`total_pushed = M`, and any poll of at least `N` events returns
exactly those `N` retained events (leaving the push/drop counters
untouched). -/
theorem dispatcher_drop_oldest (T : Type) (N : Nat) (alpha threshold : ℚ)
    (hN : 0 < N) (es : List T) (hM : N < es.length) :
    (es.foldl Dispatcher.push (Dispatcher.init T N alpha threshold)).queue =
      es.drop (es.length - N) ∧
    (es.foldl Dispatcher.push
        (Dispatcher.init T N alpha threshold)).total_dropped =
      es.length - N ∧
    (es.foldl Dispatcher.push
        (Dispatcher.init T N alpha threshold)).total_pushed =
      es.length ∧
    ∀ m : Int, (N : Int) ≤ m →
      ((es.foldl Dispatcher.push
          (Dispatcher.init T N alpha threshold)).poll m).1 =
        Except.ok (es.drop (es.length - N)) ∧
      ((es.foldl Dispatcher.push
          (Dispatcher.init T N alpha threshold)).poll m).2.total_dropped =
        es.length - N ∧
      ((es.foldl Dispatcher.push
          (Dispatcher.init T N alpha threshold)).poll m).2.total_pushed =
        es.length := by
  have h := foldl_push_spec es (Dispatcher.init T N alpha threshold) hN
    (by simp [Dispatcher.init])
  have hqueue : (es.foldl Dispatcher.push
      (Dispatcher.init T N alpha threshold)).queue =
      es.drop (es.length - N) := by
    simpa [Dispatcher.init] using h.2.1
  have hdrop : (es.foldl Dispatcher.push
      (Dispatcher.init T N alpha threshold)).total_dropped =
      es.length - N := by
    simpa [Dispatcher.init] using h.2.2.2
  have hpush : (es.foldl Dispatcher.push
      (Dispatcher.init T N alpha threshold)).total_pushed = es.length := by
    simpa [Dispatcher.init] using h.2.2.1
  refine ⟨hqueue, hdrop, hpush, ?_⟩
  intro m hmle
  have hm0 : ¬ m ≤ 0 := by omega
  have hlen : (es.foldl Dispatcher.push
      (Dispatcher.init T N alpha threshold)).queue.length = N := by
    rw [hqueue]
    simp
    omega
  have htake : N ≤ m.toNat := by omega
  unfold Dispatcher.poll
  simp only [hm0, if_false, pollLoop_eq]
  refine ⟨?_, hdrop, hpush⟩
  rw [List.take_of_length_le (by omega), hqueue]

/-- Witness for C1: `N = 3`, push `1, 2, 3, 4`; the retained queue is
`[2, 3, 4]`, one event was dropped, four pushed, and `poll 10`
returns `[2, 3, 4]` leaving `dropped = 1`, `pushed = 4`. -/
theorem dispatcher_drop_oldest_witness :
    ([1, 2, 3, 4].foldl Dispatcher.push
        (Dispatcher.init Nat 3 (1/100) (1/100))).queue = [2, 3, 4] ∧
    ([1, 2, 3, 4].foldl Dispatcher.push
        (Dispatcher.init Nat 3 (1/100) (1/100))).total_dropped = 1 ∧
    ([1, 2, 3, 4].foldl Dispatcher.push
        (Dispatcher.init Nat 3 (1/100) (1/100))).total_pushed = 4 ∧
    (([1, 2, 3, 4].foldl Dispatcher.push
        (Dispatcher.init Nat 3 (1/100) (1/100))).poll 10).1 =
      Except.ok [2, 3, 4] := by
  have h := dispatcher_drop_oldest Nat 3 (1/100) (1/100) (by decide)
    [1, 2, 3, 4] (by decide)
  have h4 := h.2.2.2 10 (by decide)
  exact ⟨h.1.trans (by decide), h.2.1.trans (by decide),
    h.2.2.1.trans (by decide), h4.1.trans (congrArg Except.ok (by decide))⟩

/-- C2: for every Dispatcher state reachable from the freshly
constructed state by a sequential interleaving of push, poll with a
positive argument, and clear, the equation
`total_pushed - total_dropped - total_polled = queue length` holds
exactly (this is exactly what `_invariant_ok` checks). -/
theorem dispatcher_quiescent_invariant (T : Type) (maxlen : Nat)
    (alpha threshold : ℚ) (hmax : 0 < maxlen)
    (ops : List (DispatcherOp T))
    (_hpos : ∀ m : Int, DispatcherOp.poll m ∈ ops → 0 < m) :
    (runOps (Dispatcher.init T maxlen alpha threshold) ops).invariant_ok =
      true := by
  have h := runOps_inv ops (Dispatcher.init T maxlen alpha threshold) hmax
    (by simp [Dispatcher.init]) (by simp [Dispatcher.init])
  simp only [Dispatcher.invariant_ok, beq_iff_eq]
  exact h.2.2

/-- Witness for C2 at a concrete run: capacity 2, pushes overflowing
the queue, a positive poll and a clear. -/
theorem dispatcher_quiescent_invariant_witness :
    (runOps (Dispatcher.init Nat 2 (1/100) (1/100))
      [DispatcherOp.push 1, DispatcherOp.push 2, DispatcherOp.push 3,
        DispatcherOp.poll 2, DispatcherOp.clear,
        DispatcherOp.push 5]).invariant_ok = true :=
  dispatcher_quiescent_invariant Nat 2 (1/100) (1/100) (by decide)
    [DispatcherOp.push 1, DispatcherOp.push 2, DispatcherOp.push 3,
      DispatcherOp.poll 2, DispatcherOp.clear, DispatcherOp.push 5]
    (by intro m hm; simp at hm; omega)

/-- C5: `poll(max)` with `max ≤ 0` raises the input-validation error
synchronously and leaves the whole state (queue, the three counters,
the EMA, the warning latch) unchanged; with `max > 0` it returns the
first `min(max, queue length)` queued events in FIFO order, removes
exactly those events, and increments `total_polled` by exactly the
number returned, touching nothing else. -/
theorem dispatcher_poll_spec (T : Type) (s : Dispatcher T) (m : Int) :
    (m ≤ 0 → s.poll m = (Except.error "max_events must be > 0", s)) ∧
    (0 < m →
      (s.poll m).1 =
        Except.ok (s.queue.take (min m.toNat s.queue.length)) ∧
      (s.poll m).2.queue = s.queue.drop (min m.toNat s.queue.length) ∧
      (s.poll m).2.total_polled =
        s.total_polled + min m.toNat s.queue.length ∧
      (s.poll m).2.total_pushed = s.total_pushed ∧
      (s.poll m).2.total_dropped = s.total_dropped ∧
      (s.poll m).2.drop_rate_ema = s.drop_rate_ema ∧
      (s.poll m).2.warned_drop_rate = s.warned_drop_rate ∧
      (s.poll m).2.maxlen = s.maxlen) := by
  constructor
  · intro h
    simp [Dispatcher.poll, h]
  · intro h
    have h0 : ¬ m ≤ 0 := by omega
    simp only [Dispatcher.poll, h0, if_false, pollLoop_eq]
    exact ⟨by rw [take_min_length], by rw [drop_min_length],
      by simp [List.length_take, Nat.min_comm], by trivial, by trivial,
      by trivial, by trivial, by trivial⟩

/-- Witness for C5 on a concrete state with queue `[10, 20, 30]`:
`poll 0` errors and changes nothing, while `poll 2` returns
`[10, 20]`, leaves `[30]` queued and advances the poll counter from
2 to 4. -/
theorem dispatcher_poll_spec_witness :
    sampleDispatcher.poll 0 =
      (Except.error "max_events must be > 0", sampleDispatcher) ∧
    (sampleDispatcher.poll 2).1 = Except.ok [10, 20] ∧
    (sampleDispatcher.poll 2).2.queue = [30] ∧
    (sampleDispatcher.poll 2).2.total_polled = 4 ∧
    (sampleDispatcher.poll 2).2.total_pushed = 7 ∧
    (sampleDispatcher.poll 2).2.total_dropped = 2 := by
  have h0 := (dispatcher_poll_spec Nat sampleDispatcher 0).1 (by decide)
  have h2 := (dispatcher_poll_spec Nat sampleDispatcher 2).2 (by decide)
  exact ⟨h0, h2.1.trans (congrArg Except.ok (by decide)),
    h2.2.1.trans (by decide), h2.2.2.1.trans (by decide),
    h2.2.2.2.1, h2.2.2.2.2.1⟩

/-- C4: for every inbound frame handled by `_on_message`, exactly one
of `messages_parsed`, `parse_errors`, `callback_errors` is
incremented, and by exactly one: `parse_errors` when decoding throws,
`callback_errors` when the callback throws after a successful decode,
`messages_parsed` otherwise; the other two counters are left exactly
as they were, so no frame increments two of them. -/
theorem adapter_counter_partition (E : Type) (c : AdapterCounters)
    (p : Except String E) (cb : E → Except String Unit) :
    (∀ err, p = Except.error err →
      on_message_counters c p cb =
        { c with parse_errors := c.parse_errors + 1 }) ∧
    (∀ e err, p = Except.ok e → cb e = Except.error err →
      on_message_counters c p cb =
        { c with callback_errors := c.callback_errors + 1 }) ∧
    (∀ e, p = Except.ok e → cb e = Except.ok () →
      on_message_counters c p cb =
        { c with messages_parsed := c.messages_parsed + 1 }) := by
  refine ⟨?_, ?_, ?_⟩
  · intro err hp
    simp [on_message_counters, hp]
  · intro e err hp hcb
    simp [on_message_counters, hp, hcb]
  · intro e hp hcb
    simp [on_message_counters, hp, hcb]

/-- Witness for C4 at concrete frames over a concrete counter state:
a failed parse bumps only `parse_errors`, a failed callback bumps
only `callback_errors`, a clean frame bumps only `messages_parsed`. -/
theorem adapter_counter_partition_witness :
    on_message_counters (E := Unit)
        { messages_parsed := 5, parse_errors := 1, callback_errors := 2 }
        (Except.error "bad frame") (fun _ => Except.ok ()) =
      { messages_parsed := 5, parse_errors := 2, callback_errors := 2 } ∧
    on_message_counters (E := Unit)
        { messages_parsed := 5, parse_errors := 1, callback_errors := 2 }
        (Except.ok ()) (fun _ => Except.error "consumer threw") =
      { messages_parsed := 5, parse_errors := 1, callback_errors := 3 } ∧
    on_message_counters (E := Unit)
        { messages_parsed := 5, parse_errors := 1, callback_errors := 2 }
        (Except.ok ()) (fun _ => Except.ok ()) =
      { messages_parsed := 6, parse_errors := 1, callback_errors := 2 } := by
  refine ⟨?_, ?_, ?_⟩
  · exact ((adapter_counter_partition Unit
      { messages_parsed := 5, parse_errors := 1, callback_errors := 2 }
      (Except.error "bad frame") (fun _ => Except.ok ())).1
      "bad frame" rfl).trans (by decide)
  · exact ((adapter_counter_partition Unit
      { messages_parsed := 5, parse_errors := 1, callback_errors := 2 }
      (Except.ok ()) (fun _ => Except.error "consumer threw")).2.1
      () "consumer threw" rfl rfl).trans (by decide)
  · exact ((adapter_counter_partition Unit
      { messages_parsed := 5, parse_errors := 1, callback_errors := 2 }
      (Except.ok ()) (fun _ => Except.ok ())).2.2
      () rfl rfl).trans (by decide)

/-- C3 evaluation: the decoder path `_parse_best_bid_ask` builds
every event with `connection_epoch` left at its declared default 0 —
no argument is passed for it and the transport keeps no epoch
counter — so an event decoded after the k-th successful reconnect
(for any k ≥ 1) carries `connection_epoch = 0`, not `k`. -/
theorem decoder_connection_epoch_never_stamped
    (msg : BidOfferV3Best) (recv_ts recv_mono_ns : Int) :
    (parse_best_bid_ask msg recv_ts recv_mono_ns).connection_epoch = 0 :=
  rfl

/-- C6: before any event has been recorded `is_feed_dead` returns
`false`; after at least one event it returns `true` iff
`max(0, now - global_last)` strictly exceeds the configured
nanosecond threshold — negative deltas clamp to zero and a gap
exactly equal to the threshold is not dead. -/
theorem feed_dead_spec (st : FeedHealthMonitor) (now : Int) :
    (st.has_ever_received = false → st.is_feed_dead now = false) ∧
    (∀ g, st.global_last_event_mono_ns = some g →
      (st.is_feed_dead now = true ↔ st.max_gap_ns < max 0 (now - g))) := by
  constructor
  · intro h
    unfold FeedHealthMonitor.has_ever_received at h
    cases hg : st.global_last_event_mono_ns with
    | none => simp [FeedHealthMonitor.is_feed_dead, hg]
    | some g =>
      rw [hg] at h
      simp at h
  · intro g hg
    simp [FeedHealthMonitor.is_feed_dead, hg]

/-- Witness for C6: a fresh monitor is never dead; the sample
monitor (last event at t = 0, threshold 5e9 ns) is not dead at
exactly t = 5e9 but is dead at t = 5e9 + 1. -/
theorem feed_dead_spec_witness :
    (FeedHealthMonitor.init 5000000000 (fun _ => none)).is_feed_dead
      7000000000 = false ∧
    sampleMonitor.is_feed_dead 5000000000 = false ∧
    sampleMonitor.is_feed_dead 5000000001 = true := by
  refine ⟨?_, ?_, ?_⟩
  · exact (feed_dead_spec
      (FeedHealthMonitor.init 5000000000 (fun _ => none)) 7000000000).1 rfl
  · have h := (feed_dead_spec sampleMonitor 5000000000).2 0 rfl
    cases hb : sampleMonitor.is_feed_dead 5000000000 with
    | false => rfl
    | true => exact absurd (h.mp hb) (by decide)
  · exact ((feed_dead_spec sampleMonitor 5000000001).2 0 rfl).mpr (by decide)

/-- C7: `is_stale(s, now)` is `false` for a never-recorded symbol;
otherwise it is `true` iff `max(0, now - last(s))` strictly exceeds
the nanosecond threshold precomputed at construction — the
per-symbol override for `s` when configured, else the global one. -/
theorem is_stale_spec (st : FeedHealthMonitor) (symbol : String)
    (now : Int) :
    (st.last_event_mono_ns symbol = none →
      st.is_stale symbol now = false) ∧
    (∀ last, st.last_event_mono_ns symbol = some last →
      (st.is_stale symbol now = true ↔
        (st.per_symbol_max_gap_ns symbol).getD st.max_gap_ns <
          max 0 (now - last))) := by
  constructor
  · intro h
    simp [FeedHealthMonitor.is_stale, h]
  · intro last h
    simp [FeedHealthMonitor.is_stale, h]

/-- Witness for C7, the override scenario: global threshold 5s,
override RARE → 60s, both symbols recorded at t = 0; at t = 10s PTT
is stale and RARE is not, and a never-recorded symbol is not
stale. -/
theorem is_stale_spec_witness :
    sampleMonitor.is_stale "PTT" 10000000000 = true ∧
    sampleMonitor.is_stale "RARE" 10000000000 = false ∧
    sampleMonitor.is_stale "KBANK" 10000000000 = false := by
  refine ⟨?_, ?_, ?_⟩
  · exact ((is_stale_spec sampleMonitor "PTT" 10000000000).2 0
      (by decide)).mpr (by decide)
  · have h := (is_stale_spec sampleMonitor "RARE" 10000000000).2 0
      (by decide)
    cases hb : sampleMonitor.is_stale "RARE" 10000000000 with
    | false => rfl
    | true => exact absurd (h.mp hb) (by decide)
  · exact (is_stale_spec sampleMonitor "KBANK" 10000000000).1 (by decide)

/-- C10: `purge(s)` returns `true` iff `s` was currently tracked; it
removes only `s`'s per-symbol entry, leaving the global timestamp,
the thresholds, every other symbol's entry, `has_ever_received`,
`is_feed_dead`, and `is_stale` of every other symbol unchanged. -/
theorem purge_frame_effect (st : FeedHealthMonitor) (symbol : String) :
    ((st.purge symbol).1 = true ↔ st.has_seen symbol = true) ∧
    (st.purge symbol).2.last_event_mono_ns symbol = none ∧
    (∀ s, s ≠ symbol →
      (st.purge symbol).2.last_event_mono_ns s =
        st.last_event_mono_ns s) ∧
    (st.purge symbol).2.global_last_event_mono_ns =
      st.global_last_event_mono_ns ∧
    (st.purge symbol).2.max_gap_ns = st.max_gap_ns ∧
    (st.purge symbol).2.per_symbol_max_gap_ns =
      st.per_symbol_max_gap_ns ∧
    (st.purge symbol).2.has_ever_received = st.has_ever_received ∧
    (∀ now, (st.purge symbol).2.is_feed_dead now =
      st.is_feed_dead now) ∧
    (∀ s now, s ≠ symbol →
      (st.purge symbol).2.is_stale s now = st.is_stale s now) := by
  refine ⟨Iff.rfl, ?_, ?_, rfl, rfl, rfl, rfl, fun _ => rfl, ?_⟩
  · simp [FeedHealthMonitor.purge]
  · intro s hs
    simp [FeedHealthMonitor.purge, hs]
  · intro s now hs
    simp [FeedHealthMonitor.purge, FeedHealthMonitor.is_stale, hs]

/-- Witness for C10: purging PTT from the sample monitor reports it
was tracked, drops its entry, and leaves the global slot, feed-dead
verdicts and RARE's staleness as they were. -/
theorem purge_frame_effect_witness :
    (sampleMonitor.purge "PTT").1 = true ∧
    (sampleMonitor.purge "PTT").2.last_event_mono_ns "PTT" = none ∧
    (sampleMonitor.purge "PTT").2.last_event_mono_ns "RARE" =
      sampleMonitor.last_event_mono_ns "RARE" ∧
    (sampleMonitor.purge "PTT").2.has_ever_received =
      sampleMonitor.has_ever_received ∧
    (sampleMonitor.purge "PTT").2.is_feed_dead 9000000000 =
      sampleMonitor.is_feed_dead 9000000000 ∧
    (sampleMonitor.purge "PTT").2.is_stale "RARE" 9000000000 =
      sampleMonitor.is_stale "RARE" 9000000000 := by
  have h := purge_frame_effect sampleMonitor "PTT"
  exact ⟨h.1.mpr (by decide), h.2.1, h.2.2.1 "RARE" (by decide),
    h.2.2.2.2.2.2.1, h.2.2.2.2.2.2.2.1 9000000000,
    h.2.2.2.2.2.2.2.2 "RARE" 9000000000 (by decide)⟩

/-- C8: for best-level and full-depth events alike (flags stored as
raw integers, as the bypass-validation constructor leaves them),
`is_auction` is `true` iff either flag is the opening-auction value 2
or the closing-auction value 3; and the session-flag enumeration has
exactly the four members with values 0, 1, 2, 3 (distinct, and every
member is one of the four). -/
theorem is_auction_spec :
    (∀ e : BestBidAsk, e.is_auction = true ↔
      (e.bid_flag = 2 ∨ e.bid_flag = 3 ∨ e.ask_flag = 2 ∨
        e.ask_flag = 3)) ∧
    (∀ e : FullBidOffer, e.is_auction = true ↔
      (e.bid_flag = 2 ∨ e.bid_flag = 3 ∨ e.ask_flag = 2 ∨
        e.ask_flag = 3)) ∧
    (∀ f : BidAskFlag, f = BidAskFlag.UNDEFINED ∨ f = BidAskFlag.NORMAL ∨
      f = BidAskFlag.ATO ∨ f = BidAskFlag.ATC) ∧
    BidAskFlag.UNDEFINED.toInt = 0 ∧ BidAskFlag.NORMAL.toInt = 1 ∧
    BidAskFlag.ATO.toInt = 2 ∧ BidAskFlag.ATC.toInt = 3 ∧
    (∀ f g : BidAskFlag, f.toInt = g.toInt → f = g) := by
  refine ⟨?_, ?_, ?_, rfl, rfl, rfl, rfl, ?_⟩
  · intro e
    simp [BestBidAsk.is_auction, is_auction_flags, AUCTION_FLAGS,
      BidAskFlag.toInt]
    tauto
  · intro e
    simp [FullBidOffer.is_auction, is_auction_flags, AUCTION_FLAGS,
      BidAskFlag.toInt]
    tauto
  · intro f
    cases f <;> simp
  · intro f g h
    cases f <;> cases g <;> first
      | rfl
      | exact absurd h (by decide)

/-- Witness for C8 on the concrete auction-detection scenario: a
best-level event built with raw integer flags `bid_flag = 2` (ATO)
and `ask_flag = 1` (NORMAL) is in auction; with both flags normal it
is not. -/
theorem is_auction_spec_witness :
    BestBidAsk.is_auction
      { symbol := "AOT", bid := 0, ask := 0, bid_vol := 0, ask_vol := 0,
        bid_flag := 2, ask_flag := 1, recv_ts := 0, recv_mono_ns := 0,
        connection_epoch := 0 } = true ∧
    BestBidAsk.is_auction
      { symbol := "AOT", bid := 25, ask := 26, bid_vol := 100,
        ask_vol := 100, bid_flag := 1, ask_flag := 1, recv_ts := 0,
        recv_mono_ns := 0, connection_epoch := 0 } = false := by
  constructor
  · exact (is_auction_spec.1
      { symbol := "AOT", bid := 0, ask := 0, bid_vol := 0, ask_vol := 0,
        bid_flag := 2, ask_flag := 1, recv_ts := 0, recv_mono_ns := 0,
        connection_epoch := 0 }).mpr (Or.inl rfl)
  · have h := is_auction_spec.1
      { symbol := "AOT", bid := 25, ask := 26, bid_vol := 100,
        ask_vol := 100, bid_flag := 1, ask_flag := 1, recv_ts := 0,
        recv_mono_ns := 0, connection_epoch := 0 }
    cases hb : BestBidAsk.is_auction
      { symbol := "AOT", bid := 25, ask := 26, bid_vol := 100,
        ask_vol := 100, bid_flag := 1, ask_flag := 1, recv_ts := 0,
        recv_mono_ns := 0, connection_epoch := 0 } with
    | false => rfl
    | true => exact absurd (h.mp hb) (by decide)

/-- Counterexample to C9: the full-depth strict constructor accepts
a negative volume element.  `negativeVolumeFullBidOffer` has
`bid_volumes[0] = -100` (the `any (· < 0)` conjunct records that),
yet validation succeeds — contradicting the claim that any negative
element in `bid_volumes` fails with a validation error. -/
theorem fulldepth_negative_volume_accepted :
    negativeVolumeFullBidOffer.validate = true ∧
    negativeVolumeFullBidOffer.bid_volumes.any
      (fun v => decide (v < 0)) = true := by
  constructor <;> decide

/-- C9 amended: the strict best-level constructor rejects negative
sizes — a negative `bid_vol` or `ask_vol` fails validation — while
the strict full-depth constructor checks only the exactly-ten-long
sequence lengths (plus symbol, flag and timestamp constraints), so
it accepts any volume elements, negative ones included. -/
theorem strict_negative_size_validation (e : BestBidAsk)
    (f : FullBidOffer) :
    (e.bid_vol < 0 → e.validate = false) ∧
    (e.ask_vol < 0 → e.validate = false) ∧
    (1 ≤ f.symbol.length → f.bid_prices.length = 10 →
      f.ask_prices.length = 10 → f.bid_volumes.length = 10 →
      f.ask_volumes.length = 10 → flagValid f.bid_flag = true →
      flagValid f.ask_flag = true → 0 ≤ f.recv_ts →
      0 ≤ f.recv_mono_ns → 0 ≤ f.connection_epoch →
      f.validate = true) := by
  refine ⟨?_, ?_, ?_⟩
  · intro h
    have hv : decide (0 ≤ e.bid_vol) = false := by
      simp
      omega
    simp [BestBidAsk.validate, hv]
  · intro h
    have hv : decide (0 ≤ e.ask_vol) = false := by
      simp
      omega
    simp [BestBidAsk.validate, hv]
  · intro h1 h2 h3 h4 h5 h6 h7 h8 h9 h10
    simp [FullBidOffer.validate, h1, h2, h3, h4, h5, h6, h7, h8, h9, h10]

/-- Witness for the amended C9: a best-level event with
`bid_vol = -1` fails validation; the concrete full-depth event with
a negative volume element passes it. -/
theorem strict_negative_size_validation_witness :
    BestBidAsk.validate
      { symbol := "AOT", bid := 25, ask := 26, bid_vol := -1,
        ask_vol := 0, bid_flag := 1, ask_flag := 1, recv_ts := 0,
        recv_mono_ns := 0, connection_epoch := 0 } = false ∧
    negativeVolumeFullBidOffer.validate = true := by
  constructor
  · exact (strict_negative_size_validation
      { symbol := "AOT", bid := 25, ask := 26, bid_vol := -1,
        ask_vol := 0, bid_flag := 1, ask_flag := 1, recv_ts := 0,
        recv_mono_ns := 0, connection_epoch := 0 }
      negativeVolumeFullBidOffer).1 (by decide)
  · exact (strict_negative_size_validation
      { symbol := "AOT", bid := 25, ask := 26, bid_vol := -1,
        ask_vol := 0, bid_flag := 1, ask_flag := 1, recv_ts := 0,
        recv_mono_ns := 0, connection_epoch := 0 }
      negativeVolumeFullBidOffer).2.2 (by decide) rfl rfl rfl rfl
      (by decide) (by decide) (by decide) (by decide) (by decide)

end SettradeFeed
